import Mathlib

/-!
Verification of the PageKite Clean launcher (`src/pagekite_clean.py`).

The program is a thin CLI wrapper: it validates the argument count, prints
status lines, spawns `python pagekite.py <local_port> <subdomain>` as a child
process with inherited standard streams, waits for it, and maps the child's
outcome to its own exit status.  We embed `main` as a pure function from the
argument vector and the (externally determined) child outcome to a linear
trace of observable events, mirroring the source line by line.
-/

namespace PageKiteClean

/-- Line printed by `print("Usage: ...")` at line 20 of the source. -/
def usageMsg : String := "Usage: python pagekite_clean.py <local_port> <subdomain.pagekite.me>"

/-- Line printed by `print("Example: ...")` at line 21 of the source. -/
def exampleMsg : String := "Example: python pagekite_clean.py 11434 myapp.pagekite.me"

/-- Line printed at line 30 of the source. -/
def startMsg : String := "Starting PageKite tunnel..."

/-- `"Local port: {0}".format(local_port)`, line 31 of the source. -/
def portMsg (localPort : String) : String := "Local port: " ++ localPort

/-- `"Public URL: https://{0}".format(subdomain)`, line 32 of the source. -/
def urlMsg (subdomain : String) : String := "Public URL: https://" ++ subdomain

/-- Line printed at line 33 of the source. -/
def hintMsg : String := "Press Ctrl+C to stop"

/-- Message printed by the registered SIGINT handler (`signal_handler`,
lines 12-15): it prints and then calls `sys.exit(0)`. -/
def handlerShutdownMsg : String := "\nShutting down PageKite tunnel..."

/-- Message printed by the `except KeyboardInterrupt` branch (line 56). -/
def exceptShutdownMsg : String := "\nPageKite tunnel stopped"

/-- A single-quote character, used by Python `repr` of strings. -/
def sq : String := String.singleton (Char.ofNat 39)

/-- Python `repr` of a list of strings, as it appears inside
`str(CalledProcessError)`. -/
def pyListRepr (xs : List String) : String :=
  "[" ++ String.intercalate ", " (xs.map (fun s => sq ++ s ++ sq)) ++ "]"

/-- The part of the `CalledProcessError` message before the status number:
`"PageKite failed with error: Command <cmd> returned non-zero exit status "`.
The source prints `"PageKite failed with error: {0}".format(e)` at line 53,
where `str(e)` for `subprocess.CalledProcessError(ret, cmd)` is
`"Command <repr of cmd> returned non-zero exit status <ret>."`. -/
def childFailedMsgPre (cmd : List String) : String :=
  "PageKite failed with error: Command " ++ sq ++ pyListRepr cmd ++ sq ++
    " returned non-zero exit status "

/-- Full error line printed at line 53 when the child exits with a
non-zero status. -/
def childFailedMsg (cmd : List String) (code : Nat) : String :=
  childFailedMsgPre cmd ++ toString code ++ "."

/-- Observable events of one run of the launcher, in order.
`spawn cmd inheritStdio` is the `subprocess.run(cmd, check=True)` invocation
(lines 45-51; the fallback `subprocess.call` branch is observably identical);
`inheritStdio` is `true` because no stdin/stdout/stderr redirection is passed.
`exitWith c` is process termination with exit status `c` (either `sys.exit(c)`
or falling off the end of `main`, which exits with status 0).
`uncaught` is termination by an exception that no handler catches. -/
inductive Event where
  | out (line : String)
  | spawn (cmd : List String) (inheritStdio : Bool)
  | exitWith (code : Nat)
  | uncaught
  deriving DecidableEq, Repr

/-- Outcome of the child-process phase, determined by the environment:
the child exits with some status, an interrupt arrives (either routed
through the registered SIGINT handler or surfacing as `KeyboardInterrupt`),
or the spawn itself fails with an `OSError` (e.g. `pagekite.py` or the
interpreter cannot be executed). -/
inductive ChildOutcome where
  | exited (code : Nat)
  | sigint
  | keyboardInterrupt
  | spawnError
  deriving DecidableEq, Repr

/-- The argument vector `cmd` built at lines 37-42:
`[sys.executable, 'pagekite.py', local_port, subdomain]`. -/
def cmdFor (exe localPort subdomain : String) : List String :=
  [exe, "pagekite.py", localPort, subdomain]

/-- Events of the `try`/`except` block (lines 35-57), given the built `cmd`
and the child outcome.  `subprocess.run(cmd, check=True)` raises
`CalledProcessError` exactly when the child's status is non-zero (the
fallback branch at lines 49-51 raises the same exception under the same
condition); the `except subprocess.CalledProcessError` branch prints the
error and exits 1; the SIGINT handler and the `except KeyboardInterrupt`
branch each print a shutdown line and exit 0; an `OSError` from the spawn
matches no `except` clause and propagates out of `main`. -/
def childPhase (cmd : List String) : ChildOutcome → List Event
  | .exited code =>
      if code = 0 then
        [.spawn cmd true, .exitWith 0]
      else
        [.spawn cmd true, .out (childFailedMsg cmd code), .exitWith 1]
  | .sigint => [.spawn cmd true, .out handlerShutdownMsg, .exitWith 0]
  | .keyboardInterrupt => [.spawn cmd true, .out exceptShutdownMsg, .exitWith 0]
  | .spawnError => [.spawn cmd true, .uncaught]

/-- The event trace of `main()` (lines 18-57).  `argv` is `sys.argv`, so the
program name is `argv[0]` and "exactly two arguments" means `argv.length = 3`;
`exe` is `sys.executable`.  If `len(sys.argv) != 3` the program prints the
usage and example lines and exits 1 before building any command; otherwise it
prints the four status lines, builds `cmd` from `sys.argv[1]`/`sys.argv[2]`,
and runs the child phase. -/
def mainTrace (exe : String) (argv : List String) (child : ChildOutcome) :
    List Event :=
  if argv.length ≠ 3 then
    [.out usageMsg, .out exampleMsg, .exitWith 1]
  else
    [.out startMsg, .out (portMsg (argv.getD 1 "")),
     .out (urlMsg (argv.getD 2 "")), .out hintMsg] ++
    childPhase (cmdFor exe (argv.getD 1 "") (argv.getD 2 "")) child

/-- The lines printed to standard output during a trace, in order. -/
def outputs : List Event → List String
  | [] => []
  | .out s :: tr => s :: outputs tr
  | _ :: tr => outputs tr

/-- The subprocess invocations of a trace: command vector and whether the
child inherits the standard streams. -/
def spawns : List Event → List (List String × Bool)
  | [] => []
  | .spawn c i :: tr => (c, i) :: spawns tr
  | _ :: tr => spawns tr

/-- The exit status of a trace: the code of the first termination event,
or `none` when the trace ends in an uncaught exception. -/
def exitCodeOf : List Event → Option Nat
  | [] => none
  | .exitWith c :: _ => some c
  | _ :: tr => exitCodeOf tr

/-- With exactly two arguments the trace is the four status lines followed
by the child phase on the command built from `argv[1]` and `argv[2]`. -/
theorem mainTrace_len3 (exe : String) (argv : List String)
    (child : ChildOutcome) (h : argv.length = 3) :
    mainTrace exe argv child =
      [Event.out startMsg, Event.out (portMsg (argv.getD 1 "")),
       Event.out (urlMsg (argv.getD 2 "")), Event.out hintMsg] ++
      childPhase (cmdFor exe (argv.getD 1 "") (argv.getD 2 "")) child := by
  unfold mainTrace
  rw [if_neg (by simp [h])]

/-- Every child phase performs exactly one subprocess invocation, on the
given command, with inherited standard streams. -/
theorem spawns_childPhase (cmd : List String) (child : ChildOutcome) :
    spawns (childPhase cmd child) = [(cmd, true)] := by
  cases child with
  | exited code =>
      by_cases hc : code = 0 <;> simp [childPhase, hc, spawns]
  | sigint => simp [childPhase, spawns]
  | keyboardInterrupt => simp [childPhase, spawns]
  | spawnError => simp [childPhase, spawns]

/-- Claim C3: for every run with exactly two arguments in which the child
process exits with status 0, the launcher exits with status 0. -/
theorem spec_c3 (exe : String) (argv : List String) (h : argv.length = 3) :
    exitCodeOf (mainTrace exe argv (ChildOutcome.exited 0)) = some 0 := by
  rw [mainTrace_len3 exe argv _ h]
  simp [childPhase, exitCodeOf]

/-- Witness for C3 at a concrete invocation. -/
theorem spec_c3_witness :
    exitCodeOf (mainTrace "/usr/bin/python3"
      ["pagekite_clean.py", "8000", "x.pagekite.me"]
      (ChildOutcome.exited 0)) = some 0 :=
  spec_c3 "/usr/bin/python3" ["pagekite_clean.py", "8000", "x.pagekite.me"] rfl

/-- Claim C4 (amended): with an argument count other than two the launcher
prints the usage line and ONE example line, exits with status 1, and never
invokes the subprocess. -/
theorem spec_c4 (exe : String) (argv : List String) (child : ChildOutcome)
    (h : argv.length ≠ 3) :
    mainTrace exe argv child =
      [Event.out usageMsg, Event.out exampleMsg, Event.exitWith 1] ∧
    outputs (mainTrace exe argv child) = [usageMsg, exampleMsg] ∧
    exitCodeOf (mainTrace exe argv child) = some 1 ∧
    spawns (mainTrace exe argv child) = [] := by
  refine ⟨?_, ?_, ?_, ?_⟩ <;> simp [mainTrace, h, outputs, exitCodeOf, spawns]

/-- Witness for C4 (amended) at a concrete invocation with zero arguments. -/
theorem spec_c4_witness :
    mainTrace "/usr/bin/python3" ["pagekite_clean.py"] ChildOutcome.sigint =
      [Event.out usageMsg, Event.out exampleMsg, Event.exitWith 1] ∧
    outputs (mainTrace "/usr/bin/python3" ["pagekite_clean.py"]
      ChildOutcome.sigint) = [usageMsg, exampleMsg] ∧
    exitCodeOf (mainTrace "/usr/bin/python3" ["pagekite_clean.py"]
      ChildOutcome.sigint) = some 1 ∧
    spawns (mainTrace "/usr/bin/python3" ["pagekite_clean.py"]
      ChildOutcome.sigint) = [] :=
  spec_c4 "/usr/bin/python3" ["pagekite_clean.py"] ChildOutcome.sigint
    (by decide)

/-- Counterexample to C4 as stated: a usage message plus two example lines
would be at least three printed lines, but on a one-argument run the
launcher prints exactly the usage line and ONE example line — two lines in
total. -/
theorem spec_c4_cex :
    outputs (mainTrace "/usr/bin/python3" ["pagekite_clean.py"]
      ChildOutcome.sigint) = [usageMsg, exampleMsg] ∧
    ¬ 3 ≤ (outputs (mainTrace "/usr/bin/python3" ["pagekite_clean.py"]
        ChildOutcome.sigint)).length := by
  refine ⟨rfl, ?_⟩
  decide

/-- Claim C6: with exactly two arguments the subprocess is invoked exactly
once, on the command `[sys.executable, "pagekite.py", local_port, subdomain]`
with the two arguments forwarded unmodified and in order, and the child
inherits the launcher's standard streams. -/
theorem spec_c6 (exe : String) (argv : List String) (child : ChildOutcome)
    (h : argv.length = 3) :
    spawns (mainTrace exe argv child) =
      [([exe, "pagekite.py", argv.getD 1 "", argv.getD 2 ""], true)] := by
  rw [mainTrace_len3 exe argv child h]
  simp [spawns, spawns_childPhase, cmdFor]

/-- Witness for C6 at a concrete invocation. -/
theorem spec_c6_witness :
    spawns (mainTrace "/usr/bin/python3"
      ["pagekite_clean.py", "8000", "x.pagekite.me"]
      (ChildOutcome.exited 3)) =
      [(["/usr/bin/python3", "pagekite.py", "8000", "x.pagekite.me"], true)] :=
  spec_c6 "/usr/bin/python3" ["pagekite_clean.py", "8000", "x.pagekite.me"]
    (ChildOutcome.exited 3) rfl

/-- Claim C1: for every run with exactly two arguments in which the child
exits with a non-zero status `n`, the launcher prints an error line that
contains `n` (as a substring of the `CalledProcessError` text) and then
exits with status 1. -/
theorem spec_c1 (exe : String) (argv : List String) (n : Nat)
    (h : argv.length = 3) (hn : n ≠ 0) :
    ∃ pre s1 s2,
      mainTrace exe argv (ChildOutcome.exited n) =
        pre ++ [Event.out (s1 ++ toString n ++ s2), Event.exitWith 1] := by
  refine ⟨[Event.out startMsg, Event.out (portMsg (argv.getD 1 "")),
      Event.out (urlMsg (argv.getD 2 "")), Event.out hintMsg,
      Event.spawn (cmdFor exe (argv.getD 1 "") (argv.getD 2 "")) true],
    childFailedMsgPre (cmdFor exe (argv.getD 1 "") (argv.getD 2 "")),
    ".", ?_⟩
  rw [mainTrace_len3 exe argv _ h]
  simp [childPhase, hn, childFailedMsg]

/-- Witness for C1 at a concrete invocation with child status 2. -/
theorem spec_c1_witness :
    ∃ pre s1 s2,
      mainTrace "/usr/bin/python3"
        ["pagekite_clean.py", "8000", "x.pagekite.me"]
        (ChildOutcome.exited 2) =
        pre ++ [Event.out (s1 ++ toString 2 ++ s2), Event.exitWith 1] :=
  spec_c1 "/usr/bin/python3" ["pagekite_clean.py", "8000", "x.pagekite.me"] 2
    rfl (by decide)

/-- Claim C2: for every run with exactly two arguments, an interrupt while
waiting on the child — whether routed through the registered SIGINT handler
or surfacing as `KeyboardInterrupt` — makes the launcher print a shutdown
line and exit with status 0, never an error status. -/
theorem spec_c2 (exe : String) (argv : List String) (child : ChildOutcome)
    (h : argv.length = 3)
    (hi : child = ChildOutcome.sigint ∨ child = ChildOutcome.keyboardInterrupt) :
    ∃ pre m, (m = handlerShutdownMsg ∨ m = exceptShutdownMsg) ∧
      mainTrace exe argv child = pre ++ [Event.out m, Event.exitWith 0] := by
  rcases hi with hi | hi <;> subst hi
  · refine ⟨[Event.out startMsg, Event.out (portMsg (argv.getD 1 "")),
        Event.out (urlMsg (argv.getD 2 "")), Event.out hintMsg,
        Event.spawn (cmdFor exe (argv.getD 1 "") (argv.getD 2 "")) true],
      handlerShutdownMsg, Or.inl rfl, ?_⟩
    rw [mainTrace_len3 exe argv _ h]
    simp [childPhase]
  · refine ⟨[Event.out startMsg, Event.out (portMsg (argv.getD 1 "")),
        Event.out (urlMsg (argv.getD 2 "")), Event.out hintMsg,
        Event.spawn (cmdFor exe (argv.getD 1 "") (argv.getD 2 "")) true],
      exceptShutdownMsg, Or.inr rfl, ?_⟩
    rw [mainTrace_len3 exe argv _ h]
    simp [childPhase]

/-- Witness for C2 at a concrete invocation interrupted via the handler. -/
theorem spec_c2_witness :
    ∃ pre m, (m = handlerShutdownMsg ∨ m = exceptShutdownMsg) ∧
      mainTrace "/usr/bin/python3"
        ["pagekite_clean.py", "8000", "x.pagekite.me"] ChildOutcome.sigint =
        pre ++ [Event.out m, Event.exitWith 0] :=
  spec_c2 "/usr/bin/python3" ["pagekite_clean.py", "8000", "x.pagekite.me"]
    ChildOutcome.sigint rfl (Or.inl rfl)

/-- Claim C5: for every run with exactly two arguments the launcher prints
the three status lines (tunnel starting, local port, public URL formed as
`https://<subdomain>`) and the interrupt hint, and all four lines precede
the subprocess invocation in the trace. -/
theorem spec_c5 (exe : String) (argv : List String) (child : ChildOutcome)
    (h : argv.length = 3) :
    ∃ rest,
      mainTrace exe argv child =
        Event.out startMsg :: Event.out (portMsg (argv.getD 1 "")) ::
        Event.out (urlMsg (argv.getD 2 "")) :: Event.out hintMsg ::
        Event.spawn (cmdFor exe (argv.getD 1 "") (argv.getD 2 "")) true ::
        rest := by
  rw [mainTrace_len3 exe argv child h]
  cases child with
  | exited code =>
      by_cases hc : code = 0
      · exact ⟨[Event.exitWith 0], by simp [childPhase, hc]⟩
      · exact ⟨[Event.out (childFailedMsg
            (cmdFor exe (argv.getD 1 "") (argv.getD 2 "")) code),
          Event.exitWith 1], by simp [childPhase, hc]⟩
  | sigint => exact ⟨_, rfl⟩
  | keyboardInterrupt => exact ⟨_, rfl⟩
  | spawnError => exact ⟨_, rfl⟩

/-- Witness for C5 at a concrete invocation. -/
theorem spec_c5_witness :
    ∃ rest,
      mainTrace "/usr/bin/python3"
        ["pagekite_clean.py", "8000", "x.pagekite.me"]
        (ChildOutcome.exited 0) =
        Event.out startMsg :: Event.out (portMsg "8000") ::
        Event.out (urlMsg "x.pagekite.me") :: Event.out hintMsg ::
        Event.spawn (cmdFor "/usr/bin/python3" "8000" "x.pagekite.me") true ::
        rest :=
  spec_c5 "/usr/bin/python3" ["pagekite_clean.py", "8000", "x.pagekite.me"]
    (ChildOutcome.exited 0) rfl

/-- Claim C7: every normally terminating run exits with status 0 or 1, with
status 0 exactly for a child success or a graceful interrupt and status 1
exactly for a usage error or a child failure. -/
theorem spec_c7 (exe : String) (argv : List String) (child : ChildOutcome)
    (h : child ≠ ChildOutcome.spawnError) :
    ∃ c, exitCodeOf (mainTrace exe argv child) = some c ∧
      (c = 0 ∨ c = 1) ∧
      (c = 0 ↔ argv.length = 3 ∧
        (child = ChildOutcome.exited 0 ∨ child = ChildOutcome.sigint ∨
         child = ChildOutcome.keyboardInterrupt)) ∧
      (c = 1 ↔ argv.length ≠ 3 ∨
        ∃ n, n ≠ 0 ∧ child = ChildOutcome.exited n) := by
  by_cases hl : argv.length = 3
  · cases child with
    | exited code =>
        by_cases hc : code = 0
        · subst hc
          refine ⟨0, ?_, Or.inl rfl, ?_, ?_⟩
          · rw [mainTrace_len3 exe argv _ hl]
            simp [childPhase, exitCodeOf]
          · simp [hl]
          · simp [hl]
        · refine ⟨1, ?_, Or.inr rfl, ?_, ?_⟩
          · rw [mainTrace_len3 exe argv _ hl]
            simp [childPhase, hc, exitCodeOf]
          · simp [hl, hc]
          · simp only [hl, ne_eq, not_true_eq_false, false_or]
            exact ⟨fun _ => ⟨code, hc, rfl⟩, fun _ => trivial⟩
    | sigint =>
        refine ⟨0, ?_, Or.inl rfl, ?_, ?_⟩
        · rw [mainTrace_len3 exe argv _ hl]
          simp [childPhase, exitCodeOf]
        · simp [hl]
        · simp [hl]
    | keyboardInterrupt =>
        refine ⟨0, ?_, Or.inl rfl, ?_, ?_⟩
        · rw [mainTrace_len3 exe argv _ hl]
          simp [childPhase, exitCodeOf]
        · simp [hl]
        · simp [hl]
    | spawnError => exact absurd rfl h
  · refine ⟨1, ?_, Or.inr rfl, ?_, ?_⟩
    · simp [mainTrace, hl, exitCodeOf]
    · simp [hl]
    · simp [hl]

/-- Witness for C7 at a concrete invocation with child status 5. -/
theorem spec_c7_witness :
    ∃ c, exitCodeOf (mainTrace "/usr/bin/python3"
        ["pagekite_clean.py", "8000", "x.pagekite.me"]
        (ChildOutcome.exited 5)) = some c ∧
      (c = 0 ∨ c = 1) ∧
      (c = 0 ↔ (["pagekite_clean.py", "8000", "x.pagekite.me"] :
          List String).length = 3 ∧
        (ChildOutcome.exited 5 = ChildOutcome.exited 0 ∨
         ChildOutcome.exited 5 = ChildOutcome.sigint ∨
         ChildOutcome.exited 5 = ChildOutcome.keyboardInterrupt)) ∧
      (c = 1 ↔ (["pagekite_clean.py", "8000", "x.pagekite.me"] :
          List String).length ≠ 3 ∨
        ∃ n, n ≠ 0 ∧ ChildOutcome.exited 5 = ChildOutcome.exited n) :=
  spec_c7 "/usr/bin/python3" ["pagekite_clean.py", "8000", "x.pagekite.me"]
    (ChildOutcome.exited 5) (by decide)

/-- Claim C8: on the invocation with arguments 11434 and myapp.pagekite.me,
a printed line containing the text https://myapp.pagekite.me occurs strictly
before the subprocess invocation: the trace splits around that line with no
spawn before it and the spawn after it. -/
theorem spec_c8 :
    ∃ pre post s1 s2,
      mainTrace "/usr/bin/python3"
        ["pagekite_clean.py", "11434", "myapp.pagekite.me"]
        (ChildOutcome.exited 0) =
        pre ++ Event.out (s1 ++ "https://myapp.pagekite.me" ++ s2) :: post ∧
      spawns pre = [] ∧ spawns post ≠ [] := by
  refine ⟨[Event.out startMsg, Event.out (portMsg "11434")],
    [Event.out hintMsg,
     Event.spawn (cmdFor "/usr/bin/python3" "11434" "myapp.pagekite.me") true,
     Event.exitWith 0],
    "Public URL: ", "", ?_, rfl, by decide⟩
  decide

/-- Claim C9: with exactly two arguments, when the spawn itself fails with
an `OSError` the launcher terminates via an uncaught exception: no handler
runs, no exit status is produced by the program itself, and the only lines
printed are the four status lines — not the ChildFailed error line. -/
theorem spec_c9 (exe : String) (argv : List String) (h : argv.length = 3) :
    mainTrace exe argv ChildOutcome.spawnError =
      [Event.out startMsg, Event.out (portMsg (argv.getD 1 "")),
       Event.out (urlMsg (argv.getD 2 "")), Event.out hintMsg,
       Event.spawn (cmdFor exe (argv.getD 1 "") (argv.getD 2 "")) true,
       Event.uncaught] ∧
    exitCodeOf (mainTrace exe argv ChildOutcome.spawnError) = none ∧
    outputs (mainTrace exe argv ChildOutcome.spawnError) =
      [startMsg, portMsg (argv.getD 1 ""), urlMsg (argv.getD 2 ""),
       hintMsg] := by
  refine ⟨?_, ?_, ?_⟩ <;> rw [mainTrace_len3 exe argv _ h] <;>
    simp [childPhase, exitCodeOf, outputs]

/-- Witness for C9 at a concrete invocation. -/
theorem spec_c9_witness :
    mainTrace "/usr/bin/python3"
      ["pagekite_clean.py", "8000", "x.pagekite.me"]
      ChildOutcome.spawnError =
      [Event.out startMsg, Event.out (portMsg "8000"),
       Event.out (urlMsg "x.pagekite.me"), Event.out hintMsg,
       Event.spawn (cmdFor "/usr/bin/python3" "8000" "x.pagekite.me") true,
       Event.uncaught] ∧
    exitCodeOf (mainTrace "/usr/bin/python3"
      ["pagekite_clean.py", "8000", "x.pagekite.me"]
      ChildOutcome.spawnError) = none ∧
    outputs (mainTrace "/usr/bin/python3"
      ["pagekite_clean.py", "8000", "x.pagekite.me"]
      ChildOutcome.spawnError) =
      [startMsg, portMsg "8000", urlMsg "x.pagekite.me", hintMsg] :=
  spec_c9 "/usr/bin/python3" ["pagekite_clean.py", "8000", "x.pagekite.me"]
    rfl

/-- Claim C10: whatever the arguments and child outcome, the single
subprocess invocation runs the launcher's own interpreter `exe`
(`sys.executable`) on the fixed literal `pagekite.py` — a relative path
(its first character is not the path separator), not configurable and not
derived from the script's own location. -/
theorem spec_c10 (exe : String) (argv : List String) (child : ChildOutcome)
    (h : argv.length = 3) :
    spawns (mainTrace exe argv child) =
      [(exe :: "pagekite.py" :: argv.getD 1 "" :: [argv.getD 2 ""], true)] ∧
    "pagekite.py".data.head? ≠ some (Char.ofNat 47) := by
  refine ⟨?_, by decide⟩
  rw [mainTrace_len3 exe argv child h]
  simp [spawns, spawns_childPhase, cmdFor]

/-- Witness for C10 at a concrete invocation. -/
theorem spec_c10_witness :
    spawns (mainTrace "/opt/python" ["pagekite_clean.py", "80", "a.b"]
      ChildOutcome.keyboardInterrupt) =
      [("/opt/python" :: "pagekite.py" :: "80" :: ["a.b"], true)] ∧
    "pagekite.py".data.head? ≠ some (Char.ofNat 47) :=
  spec_c10 "/opt/python" ["pagekite_clean.py", "80", "a.b"]
    ChildOutcome.keyboardInterrupt rfl

end PageKiteClean
